import Mathlib

/-!
# Verification of the be-lumir conversation/RAG platform

Shallow embedding of the parts of the repository relevant to the frozen
claims:

* the chat orchestration graph (`src/src/lumir_agentic/chat.py`,
  `src/src/lumir_agentic/core/agent/node.py`),
* the document-chunking ingestion pipeline
  (`src/f/rag/chunking.flow/inline_script_0.inline_script.py`),
* the search / rerank / context services
  (`src/f/llm_service/beq_v2_optimize.flow/inline_script_{1,2,3,4}.inline_script.py`).

External I/O (LLM calls, HTTP requests, file system) is abstracted into
oracle values supplied as parameters: an `Except`/outcome value stands for
the response or the exception raised by the corresponding Python call.
Python floats used as scores are modelled as rationals; Python `list.sort`
(which is stable) is modelled by `List.insertionSort`, which is stable for
a non-strict relation.
-/

namespace Lumir

open List

/-! ## Shared helpers: Python string truthiness -/

/-- Python `str.strip()` (strip whitespace from both ends), written over
the character list so that it evaluates by kernel reduction. -/
def pyStrip (s : String) : String :=
  String.mk (((s.toList.dropWhile Char.isWhitespace).reverse.dropWhile
    Char.isWhitespace).reverse)

/-- Python `str.lower()`. -/
def pyLower (s : String) : String :=
  String.mk (s.toList.map Char.toLower)

/-- Python `s.startswith(pre)`. -/
def pyStartsWith (s pre : String) : Bool :=
  pre.toList.isPrefixOf s.toList

/-- Python slice `s[:n]`. -/
def pyTake (s : String) (n : ℕ) : String :=
  String.mk (s.toList.take n)

/-- Python truthiness of an optional string: `None` and `""` are falsy. -/
def strTruthy : Option String → Bool
  | none => false
  | some s => !s.isEmpty

/-- Python `a or b` on optional strings (first operand if truthy). -/
def orTruthy (a b : Option String) : Option String :=
  if strTruthy a then a else b

/-! ## Result dictionaries shared by the llm_service flow scripts

`Payload` models the `payload` dict of a formatted search result; each
field models the presence (`some`) or absence (`none`) of the key.  The
`metadata` spread (`**result.get("metadata", {})`) merges free-form keys
that none of the claims read; it is not modelled. -/

structure Payload where
  chunk_id : Option String := none
  document_id : Option String := none
  chunk_content : Option String := none
  text : Option String := none
  chunk_text : Option String := none
  source : Option String := none
  filename : Option String := none
  doc_title : Option String := none
  document_title : Option String := none
  document_name : Option String := none
  deriving Repr, DecidableEq

/-- A formatted search-result dict `{id, score, payload, rerank_score?}`
(the `rerank_score` key is only present after reranking). -/
structure RawResult where
  id : Option String := none
  score : Option ℚ := none
  payload : Option Payload := none
  rerank_score : Option ℚ := none
  deriving Repr, DecidableEq

/-! ## Stable descending sort (model of Python `list.sort(key=…, reverse=True)`)

CPython's sort is stable, and `reverse=True` does not reverse the order of
elements with equal keys.  `List.insertionSort` with the non-strict
relation `key b ≤ key a` has exactly this behaviour. -/

/-- `descRel key a b` holds when `a` may come before `b` in a descending
sort by `key`. -/
def descRel {α K : Type} [LinearOrder K] (key : α → K) (a b : α) : Prop :=
  key b ≤ key a

instance descRelDecidable {α K : Type} [LinearOrder K] (key : α → K) :
    DecidableRel (descRel key) :=
  fun a b => inferInstanceAs (Decidable (key b ≤ key a))

instance descRelTotal {α K : Type} [LinearOrder K] (key : α → K) :
    IsTotal α (descRel key) :=
  ⟨fun a b => le_total (key b) (key a)⟩

instance descRelTrans {α K : Type} [LinearOrder K] (key : α → K) :
    IsTrans α (descRel key) :=
  ⟨fun _ _ _ hab hbc => le_trans hbc hab⟩

/-- Python `l.sort(key=key, reverse=True)`: stable descending sort. -/
def pySortDesc {α K : Type} [LinearOrder K] (key : α → K) (l : List α) : List α :=
  l.insertionSort (descRel key)

theorem pySortDesc_perm {α K : Type} [LinearOrder K] (key : α → K) (l : List α) :
    pySortDesc key l ~ l :=
  List.perm_insertionSort _ l

theorem pySortDesc_sorted {α K : Type} [LinearOrder K] (key : α → K) (l : List α) :
    (pySortDesc key l).Sorted (descRel key) :=
  List.sorted_insertionSort _ l

theorem pySortDesc_stable {α K : Type} [LinearOrder K] (key : α → K)
    {l c : List α} (hc : c <+ l) (hr : c.Pairwise (descRel key)) :
    c <+ pySortDesc key l :=
  List.sublist_insertionSort hr hc

end Lumir

namespace Rerank

/-!
## Reranking service
Source: `src/f/llm_service/beq_v2_optimize.flow/inline_script_3.inline_script.py`.

The rerank API call (`_call_reranking_api`) is abstracted as an oracle
`Option (List ℚ)`: `none` models a raised exception (network failure or
error status), `some scores` models `response.json().get("scores", [])`.
All inputs in this flow are dicts, so only the dict branch of
`_apply_reranking_scores` is modelled.
-/

open Lumir List

/-- `ResultReranker._extract_contexts` (lines 84-93): the text of each
result's `payload["chunk_content"]`, defaulting to `""`. -/
def extractContexts (searchResults : List RawResult) : List String :=
  searchResults.map fun r =>
    match r.payload with
    | some p => p.chunk_content.getD ""
    | none => ""

/-- The per-item annotation step in `_apply_reranking_scores`
(lines 108-119): copy each dict and add the `rerank_score` key. -/
def annotateScores (searchResults : List RawResult) (scores : List ℚ) : List RawResult :=
  (searchResults.zip scores).map fun p => { p.1 with rerank_score := some p.2 }

/-- Sort key of `_apply_reranking_scores` (line 121):
`x.get("rerank_score", 0.0)`. -/
def rerankKey (r : RawResult) : ℚ :=
  r.rerank_score.getD 0

/-- `ResultReranker._apply_reranking_scores` (lines 105-122). -/
def applyRerankingScores (searchResults : List RawResult) (scores : List ℚ) : List RawResult :=
  pySortDesc rerankKey (annotateScores searchResults scores)

/-- `ResultReranker.rerank_results` (lines 62-82); `api` is the outcome of
`_call_reranking_api`. -/
def rerankResults (api : Option (List ℚ)) (searchResults : List RawResult) : List RawResult :=
  if searchResults.isEmpty then searchResults
  else
    let contexts := extractContexts searchResults
    if contexts.isEmpty then searchResults
    else
      match api with
      | none => searchResults
      | some scores =>
          if scores.isEmpty || scores.length != searchResults.length then searchResults
          else applyRerankingScores searchResults scores

/-- `main` (lines 124-145). -/
def rerankMain (enableRerank : Bool) (api : Option (List ℚ))
    (searchResults : List RawResult) : List RawResult :=
  if !enableRerank then searchResults
  else if searchResults.isEmpty then searchResults
  else rerankResults api searchResults

end Rerank

namespace ContextSvc

/-!
## Context service
Source: `src/f/llm_service/beq_v2_optimize.flow/inline_script_4.inline_script.py`.
-/

open Lumir List

/-- `ContextItem` (lines 9-15). -/
structure ContextItem where
  id : String
  score : ℚ
  text : String
  metadata : Payload
  source : String
  deriving Repr, DecidableEq

/-- The text fallback chain in `_extract_context_item` (lines 42-47):
`payload.get("chunk_content") or payload.get("text") or
payload.get("chunk_text") or ""`. -/
def extractText (p : Payload) : String :=
  (orTruthy p.chunk_content (orTruthy p.text p.chunk_text)).getD ""

/-- `ContextProcessor._extract_context_item` (lines 34-60). -/
def extractContextItem (r : RawResult) : Option ContextItem :=
  let contextId := r.id.getD "unknown"
  let score := r.score.getD 0
  let payload := r.payload.getD {}
  let text := extractText payload
  if (pyStrip text).isEmpty then none
  else
    some { id := contextId, score := score, text := pyStrip text,
           metadata := payload, source := payload.source.getD "search" }

/-- `ContextProcessor._validate_context_item` (lines 62-67). -/
def validateContextItem (minScoreThreshold : ℚ) (c : ContextItem) : Bool :=
  if c.score < minScoreThreshold then false
  else if c.text.length < 10 then false
  else true

/-- `ContextProcessor.process_search_results` (lines 22-32); the per-item
`try/except` cannot fire in the pure model. -/
def processSearchResults (minScoreThreshold : ℚ) (searchResults : List RawResult) :
    List ContextItem :=
  searchResults.filterMap fun r =>
    match extractContextItem r with
    | some c => if validateContextItem minScoreThreshold c then some c else none
    | none => none

/-- Sort key of `select_top_contexts` (line 74): the Python tuple
`(x.score, len(x.text))` compared lexicographically. -/
def ctxKey (c : ContextItem) : ℚ ×ₗ ℕ :=
  toLex (c.score, c.text.length)

/-- `ContextProcessor.select_top_contexts` (lines 69-78). -/
def selectTopContexts (maxContexts : ℕ) (contexts : List ContextItem) : List ContextItem :=
  if contexts.isEmpty then []
  else (pySortDesc ctxKey contexts).take maxContexts

/-- `ContextProcessor._extract_document_identifier` (lines 96-105). -/
def extractDocumentIdentifier (c : ContextItem) : String :=
  (orTruthy c.metadata.filename
    (orTruthy c.metadata.doc_title
      (orTruthy c.metadata.document_title c.metadata.document_name))).getD
    ("Document " ++ c.id.take 8)

/-- `ContextProcessor.format_contexts_for_llm` (lines 80-94). -/
def formatContextsForLLM (contexts : List ContextItem) : String :=
  if contexts.isEmpty then ""
  else
    let blocks := (contexts.enumFrom 1).map fun p =>
      "\nContext " ++ toString p.1 ++ " (from " ++ extractDocumentIdentifier p.2 ++ "):\n"
        ++ p.2.text
    String.intercalate "\n" (["=== REFERENCE INFORMATION ==="] ++ blocks
      ++ ["\n=== END REFERENCE INFORMATION ==="])

/-- `main` (lines 107-136).  The conversion of the selected items to plain
dicts (lines 118-129) is a representation change that keeps order and
fields; the selected `ContextItem`s themselves are returned here. -/
def contextMain (searchResults : List RawResult) (uploadMode : Bool) :
    List ContextItem × String :=
  let maxContexts := if uploadMode then 7 else 5
  let contexts := processSearchResults 0 searchResults
  let selected := selectTopContexts maxContexts contexts
  (selected, formatContextsForLLM selected)

end ContextSvc

namespace Chunking

/-!
## Document-chunking ingestion pipeline
Source: `src/f/rag/chunking.flow/inline_script_0.inline_script.py`.

The per-document work of `_process_single_document` (download with
retries, loading, splitting, per-chunk embedding) and the per-batch HTTP
POST of `upload_chunks_batch` are external I/O; they are abstracted into
the `PipelineEnv` oracle: `processDoc d` is the outcome of
`_process_single_document` for document id `d` (`ok` with the chunk dicts
and the metadata, or `error` with the exception message), and
`uploadBatch n b` is the outcome of POSTing batch number `n` with chunks
`b` (`ok` with the reported `chunks_processed`, or `error` with the
`requests.RequestException` message).  Timing metrics are not modelled.
-/

open List

/-- One chunk dict produced by `_process_single_document` (lines 458-474);
only the fields the claims read are kept. -/
structure Chunk where
  chunk_id : String := ""
  document_id : String := ""
  chunk_index : ℕ := 0
  chunk_text : String := ""
  deriving Repr, DecidableEq

/-- Document metadata (`get_document_metadata` result); only `file_size`
is read by the processing loop. -/
structure DocMeta where
  file_size : ℕ := 0
  deriving Repr, DecidableEq

/-- Oracle for the external effects of the pipeline. -/
structure PipelineEnv where
  processDoc : String → Except String (List Chunk × DocMeta)
  uploadBatch : ℕ → List Chunk → Except String ℕ

/-- Keep the first occurrence of every string.  The source deduplicates
with `list(set(...))` (line 395-397), whose order CPython leaves
unspecified; the model fixes first-occurrence order, which has the same
elements. -/
def dedupKeepFirst (l : List String) : List String :=
  l.foldl (fun acc d => if acc.contains d then acc else acc ++ [d]) []

/-- `DocumentPipeline._validate_inputs` (lines 383-401). -/
def validateInputs (uploadDocuments : List String) (sessionId : String) :
    Except String (List String) :=
  if sessionId.isEmpty || (Lumir.pyStrip sessionId).isEmpty then .error "Session ID is required"
  else if uploadDocuments.isEmpty then .error "No documents provided"
  else
    let cleanDocs := dedupKeepFirst
      ((uploadDocuments.filter (fun d => !(Lumir.pyStrip d).isEmpty)).map Lumir.pyStrip)
    if cleanDocs.isEmpty then .error "No valid document IDs found"
    else .ok cleanDocs

/-- Accumulator of the per-document loop in `process_documents`
(lines 525-558): collected chunks, processed count, total size, errors. -/
structure DocsAcc where
  chunks : List Chunk := []
  processed : ℕ := 0
  totalSize : ℕ := 0
  errors : List String := []
  deriving Repr, DecidableEq

/-- Contribution of one document to the loop accumulator: the `try`
body for one `document_id` (lines 536-558). -/
def processOneDoc (env : PipelineEnv) (documentId : String) : DocsAcc :=
  match env.processDoc documentId with
  | .ok (chunks, metadata) =>
      if chunks.isEmpty then { errors := ["No chunks generated for " ++ documentId] }
      else { chunks := chunks, processed := 1, totalSize := metadata.file_size }
  | .error e => { errors := ["Failed to process " ++ documentId ++ ": " ++ e] }

/-- The per-document loop of `process_documents` (lines 535-558).  The
source accumulates left to right; the model adds each document's
contribution in order, which yields the same lists and sums. -/
def processDocsLoop (env : PipelineEnv) : List String → DocsAcc
  | [] => {}
  | d :: rest =>
      let this := processOneDoc env d
      let r := processDocsLoop env rest
      { chunks := this.chunks ++ r.chunks,
        processed := this.processed + r.processed,
        totalSize := this.totalSize + r.totalSize,
        errors := this.errors ++ r.errors }

/-- `chunks[i : i + batch_size]` grouping of the upload loop
(lines 307-309). -/
def toBatches (batchSize : ℕ) (l : List Chunk) : List (List Chunk) :=
  if h : batchSize = 0 ∨ l = [] then []
  else (l.take batchSize) :: toBatches batchSize (l.drop batchSize)
termination_by l.length
decreasing_by
  push_neg at h
  obtain ⟨h1, h2⟩ := h
  simp only [List.length_drop]
  exact Nat.sub_lt (List.length_pos.mpr h2) (Nat.pos_of_ne_zero h1)

/-- `DocumentAPI.upload_chunks_batch` result dict (lines 340-347). -/
structure UploadResult where
  success : Bool := false
  total_chunks : ℕ := 0
  uploaded_chunks : ℕ := 0
  successful_batches : ℕ := 0
  failed_batches : ℕ := 0
  errors : List String := []
  deriving Repr, DecidableEq

/-- The batch loop of `upload_chunks_batch` (lines 307-338),
`batchNumber` being the 1-based number of the first batch of the list.
Every batch is attempted: a failed batch only records its error and the
loop continues (`continue`, line 334). -/
def uploadLoop (env : PipelineEnv) (batchNumber : ℕ) :
    List (List Chunk) → UploadResult
  | [] => {}
  | b :: rest =>
      let r := uploadLoop env (batchNumber + 1) rest
      match env.uploadBatch batchNumber b with
      | .ok uploaded =>
          { r with uploaded_chunks := uploaded + r.uploaded_chunks,
                   successful_batches := r.successful_batches + 1 }
      | .error e =>
          { r with failed_batches := r.failed_batches + 1,
                   errors := ("Batch " ++ toString batchNumber ++ " failed: " ++ e)
                     :: r.errors }

/-- `DocumentAPI.upload_chunks_batch` (lines 288-347). -/
def uploadChunksBatch (env : PipelineEnv) (chunks : List Chunk) (batchSize : ℕ) :
    UploadResult :=
  let r := uploadLoop env 1 (toBatches batchSize chunks)
  { r with success := r.failed_batches == 0, total_chunks := chunks.length }

/-- The well-formed result dict of `process_documents` (lines 588-599). -/
structure PipelineOk where
  success : Bool
  documents_processed : ℕ
  total_chunks_created : ℕ
  uploaded_chunks : ℕ
  total_size_bytes : ℕ
  errors : List String
  deriving Repr, DecidableEq

/-- Result of `process_documents`: either the full result dict or the
fatal-failure dict `{"success": False, "error": str(e), ...}` of the outer
`except` clause (lines 614-621). -/
inductive PipelineResult where
  | ok (r : PipelineOk)
  | fatal (error : String)
  deriving Repr, DecidableEq

/-- The `success` entry of either result shape. -/
def PipelineResult.success : PipelineResult → Bool
  | .ok r => r.success
  | .fatal _ => false

/-- The `errors` list, when the result shape has one (the fatal shape
carries only a single `error` string). -/
def PipelineResult.errorsList : PipelineResult → Option (List String)
  | .ok r => some r.errors
  | .fatal _ => none

/-- `batch_size_insert or 8` (line 519): Python `or` falls back to the
default 8 when the argument is `None` or the falsy `0`. -/
def effBatchSize : Option ℕ → ℕ
  | some b => if b = 0 then 8 else b
  | none => 8

/-- `DocumentPipeline.process_documents` (lines 501-621).  In the model
the only exception reaching the outer `except` clause is a validation
failure; every other failure is caught inside the loops. -/
def processDocuments (env : PipelineEnv) (uploadDocuments : List String)
    (sessionId : String) (batchSizeInsert : Option ℕ := none) : PipelineResult :=
  match validateInputs uploadDocuments sessionId with
  | .error e => .fatal e
  | .ok cleanDocs =>
      let batchSize := effBatchSize batchSizeInsert
      let acc := processDocsLoop env cleanDocs
      let uploadResult : Option UploadResult :=
        if acc.chunks.isEmpty then none
        else some (uploadChunksBatch env acc.chunks batchSize)
      .ok {
        success := decide (0 < acc.processed)
          && (match uploadResult with | some u => u.success | none => false),
        documents_processed := acc.processed,
        total_chunks_created := acc.chunks.length,
        uploaded_chunks := match uploadResult with | some u => u.uploaded_chunks | none => 0,
        total_size_bytes := acc.totalSize,
        errors := acc.errors
          ++ (match uploadResult with | some u => u.errors | none => []) }

end Chunking

namespace Chat

/-!
## Chat orchestration graph
Sources: `src/src/lumir_agentic/chat.py` (the `ChatAgent` node functions
and the two compiled graphs) and `src/src/lumir_agentic/core/agent/node.py`
(`execute_tool_calls`, `chat_plan`, `use_tools`).

LLM invocations, the encrypted memory store and the knowledge-base tools
are abstracted into the `ChatOracle`: each field is the outcome of the
corresponding external call (`ok` with the returned value, `error` with
the exception message).  The LangGraph state dict `WorkflowChatState` is a
record; `Option` fields model keys that may be absent (`none`), and
`hasLLM` models the presence of the `"llm"` key.
-/

open Lumir List

/-- A conversation message `{role, content}`. -/
structure Message where
  role : String
  content : String
  deriving Repr, DecidableEq

/-- `ToolCall` (`states.py` lines 16-21). -/
structure ToolCallRec where
  tool_name : String
  parameters : List (String × String)
  result : String
  success : Bool
  deriving Repr, DecidableEq

/-- The `tool_results` state entry: `use_tools` stores a dict, the
exception handler of `_execute_tools_node` stores a plain string. -/
inductive ToolResults where
  | map (entries : List (String × String))
  | errStr (s : String)
  deriving Repr, DecidableEq

/-- The `user_profile` dict (only the keys the nodes read). -/
structure UserProfile where
  user_id : Option String := none
  session_id : Option String := none
  deriving Repr, DecidableEq

/-- `WorkflowChatState` (`states.py` lines 83-121) plus the extra keys the
nodes store (`plan`, `analysis_result`, `list_tools`). -/
structure ChatState where
  user_question : String := ""
  conversation_history : List Message := []
  user_profile : UserProfile := {}
  use_memory : Bool := false
  memory_context : Option String := none
  tool_calls : List ToolCallRec := []
  tool_results : Option ToolResults := none
  memory_conversation : Option (List Message) := none
  hasLLM : Bool := false
  plan : Option String := none
  analysis_result : Option String := none
  list_tools : List String := []
  final_response : Option String := none
  current_step : String := ""
  is_complete : Bool := false
  language : String := ""
  deriving Repr, DecidableEq

/-- An LLM response message: its text content and the tool calls it
requests, each a `(name, args)` pair. -/
structure LLMResponseMsg where
  content : String := ""
  tool_calls : List (String × List (String × String)) := []
  deriving Repr, DecidableEq

/-- A knowledge-base search result dict (`search_info` fallback path);
`data` items are modelled by their extracted content strings. -/
structure SearchKBResult where
  success : Bool := false
  data : List String := []
  message : Option String := none
  deriving Repr, DecidableEq

/-- Outcomes of every external call the chat nodes make. -/
structure ChatOracle where
  getHistory : Option String → Option String → Except String (List Message) :=
    fun _ _ => .ok []
  memoryDecision : String → Option (List Message) → Except String String :=
    fun _ _ => .ok "false"
  chatPlan : String → List Message → Except String String :=
    fun _ _ => .ok "plan"
  useToolsLLM : String → String → Except String LLMResponseMsg :=
    fun _ _ => .ok {}
  toolInvoke : String → List (String × String) → Except String String :=
    fun _ _ => .ok ""
  searchKB : String → Except String SearchKBResult :=
    fun _ => .ok {}
  generate : ChatState → Except String String :=
    fun _ => .ok ""

/-- The memory-loading prefix of `_memory_decision_node` (`chat.py`
lines 123-152): returns the updated state and the local
`memory_conversation` value used to build the decision prompt.  On a
loading error the state is left unchanged and the local value is `None`
(lines 150-152). -/
def loadMemoryStep (o : ChatOracle) (s : ChatState) : ChatState × Option (List Message) :=
  if strTruthy s.user_profile.user_id && strTruthy s.user_profile.session_id then
    match o.getHistory s.user_profile.user_id s.user_profile.session_id with
    | .ok h => ({ s with memory_conversation := some h }, some h)
    | .error _ => (s, none)
  else (s, s.memory_conversation)

/-- `ChatAgent._memory_decision_node` (`chat.py` lines 113-181). -/
def memoryDecisionNode (o : ChatOracle) (s : ChatState) : ChatState :=
  let loaded := loadMemoryStep o s
  match o.memoryDecision s.user_question loaded.2 with
  | .ok responseContent =>
      let decisionText := pyLower (pyStrip responseContent)
      let useMemory := decisionText == "true"
      { loaded.1 with
        use_memory := useMemory,
        current_step := if useMemory then "use_memory" else "analyze_user_question" }
  | .error _ =>
      { loaded.1 with use_memory := false, current_step := "analyze_user_question" }

/-- `ChatAgent._use_memory_node` (`chat.py` lines 214-251). -/
def useMemoryNode (s : ChatState) : ChatState :=
  let memoryConversation := s.memory_conversation.getD []
  if memoryConversation.isEmpty then
    { s with memory_context := some "", current_step := "analyze_user_question" }
  else
    let lines := memoryConversation.map fun m => m.role ++ ": " ++ m.content
    { s with memory_context := some (String.intercalate "\n" lines),
             current_step := "analyze_user_question" }

/-- `ChatAgent._analyze_user_question_node` (`chat.py` lines 183-212);
`chat_plan` (`node.py` lines 98-110) strips the LLM content.  On an LLM
failure the `plan` key is left unset and only `analysis_result` is
written (lines 207-212); `state["llm"]` was already set (line 195). -/
def analyzeUserQuestionNode (o : ChatOracle) (s : ChatState) : ChatState :=
  let s0 := { s with hasLLM := true }
  match o.chatPlan s.user_question s.conversation_history with
  | .ok content =>
      let plan := pyStrip content
      { s0 with
        plan := some plan,
        analysis_result := some (if plan.length > 100
          then "Plan generated: " ++ pyTake plan 100 ++ "..." else plan),
        current_step := "search_info" }
  | .error _ =>
      { s0 with
        analysis_result := some ("Analyzed question: " ++ s.user_question),
        current_step := "search_info" }

/-- Python truthiness of the `plan` state entry (`state.get("plan")`). -/
def planTruthy : Option String → Bool
  | none => false
  | some p => !p.isEmpty

/-- The result-string formatting of the `search_info` fallback
(`chat.py` lines 328-344). -/
def formatKBResult (res : SearchKBResult) : String :=
  if res.success then
    if !res.data.isEmpty then
      let items := ((res.data.take 5).enumFrom 1).map fun p =>
        toString p.1 ++ ". " ++ p.2 ++ "\n\n"
      ("Found " ++ toString res.data.length ++ " results:\n\n"
        ++ String.join items) |> pyStrip
    else "No relevant information found in knowledge base."
  else res.message.getD "Unknown error during search."

/-- `ChatAgent._search_info_node` (`chat.py` lines 311-372). -/
def searchInfoNode (o : ChatOracle) (s : ChatState) : ChatState :=
  if planTruthy s.plan then { s with current_step := "execute_tools" }
  else
    match o.searchKB s.user_question with
    | .ok result =>
        { s with
          tool_calls := [{ tool_name := "search_knowledge_base",
                           parameters := [("question", s.user_question)],
                           result := formatKBResult result, success := true }],
          current_step := "generate_response" }
    | .error e =>
        { s with
          tool_calls := [{ tool_name := "search_knowledge_base",
                           parameters := [("question", s.user_question)],
                           result := "Search error: " ++ e, success := false }],
          current_step := "generate_response" }

/-- Dict insertion preserving first-insertion position (Python
`results[tool_name] = ...`). -/
def dictInsert (d : List (String × String)) (k v : String) : List (String × String) :=
  if d.any (fun p => p.1 == k) then
    d.map fun p => if p.1 == k then (k, v) else p
  else d ++ [(k, v)]

/-- `execute_tool_calls` (`node.py` lines 68-94); `registry` is the list
of registered tool names, `o.toolInvoke` the outcome of `func.invoke`. -/
def executeToolCalls (o : ChatOracle)
    (respToolCalls : List (String × List (String × String)))
    (registry : List String) : List (String × String) :=
  if respToolCalls.isEmpty then [("info", "No tool calls found in response.")]
  else
    respToolCalls.foldl
      (fun results call =>
        let toolName := call.1
        if registry.contains toolName then
          match o.toolInvoke toolName call.2 with
          | .ok r => dictInsert results toolName r
          | .error e =>
              dictInsert results toolName ("❌ Error executing " ++ toolName ++ ": " ++ e)
        else
          dictInsert results toolName
            ("⚠️ Tool '" ++ toolName ++ "' chưa được đăng ký."))
      []

/-- `use_tools` (`node.py` lines 113-155): raises `ValueError` when the
llm, a truthy plan, or a non-empty tool list is missing from the state. -/
def useTools (o : ChatOracle) (s : ChatState) :
    Except String (List (String × String)) :=
  if !s.hasLLM then .error "LLM not found in state"
  else if !planTruthy s.plan then .error "Plan not found in state"
  else if s.list_tools.isEmpty then .error "List tools not found in state"
  else
    match o.useToolsLLM s.user_question (s.plan.getD "") with
    | .error e => .error e
    | .ok resp => .ok (executeToolCalls o resp.tool_calls s.list_tools)

/-- The three tools `_execute_tools_node` always places in the state
(`chat.py` lines 273-277). -/
def chatToolNames : List String :=
  ["search_knowledge_base", "get_mapping_keyword", "get_memory_context"]

/-- The state preparation of `_execute_tools_node` (`chat.py`
lines 262-277): ensure the llm key, `elif` substitute a default plan when
the plan key is absent, and install the fixed tool list.  Note the
source's `elif`: the default plan is only substituted when the llm key
was already present. -/
def executeToolsPrep (s : ChatState) : ChatState :=
  let s1 :=
    if !s.hasLLM then { s with hasLLM := true }
    else if s.plan = none then
      { s with plan := some ("Search for information about: " ++ s.user_question) }
    else s
  { s1 with list_tools := chatToolNames }

/-- `ChatAgent._execute_tools_node` (`chat.py` lines 253-309).  Every
exception, including the `ValueError`s of `use_tools`, is caught by the
node's `except` clause (lines 303-309), which stores an error string and
proceeds; the node never raises. -/
def executeToolsNode (o : ChatOracle) (s : ChatState) : ChatState :=
  let s2 := executeToolsPrep s
  match useTools o s2 with
  | .ok toolResults =>
      { s2 with
        tool_results := some (.map toolResults),
        tool_calls := toolResults.map fun p =>
          { tool_name := p.1, parameters := [], result := p.2,
            success := !(pyStartsWith p.2 "❌") },
        current_step := "generate_response" }
  | .error e =>
      { s2 with
        tool_results := some (.errStr ("Tool execution error: " ++ e)),
        tool_calls := [],
        current_step := "generate_response" }

/-- `ChatAgent._generate_response_node` (`chat.py` lines 374-413). -/
def generateResponseNode (o : ChatOracle) (s : ChatState) : ChatState :=
  match o.generate s with
  | .ok content => { s with final_response := some content, is_complete := true }
  | .error e =>
      { s with final_response := some ("Error generating response: " ++ e),
               is_complete := true }

/-! ### The two compiled graphs

`_create_graph` (lines 66-89) and `_create_graph_without_generation`
(lines 91-111) register the same node functions and the same edges; the
only differences are that the streaming graph has no `generate_response`
node and its `execute_tools` edge goes to `END`. -/

/-- Node names of the chat graphs. -/
inductive NodeName where
  | memory_decision
  | use_memory
  | analyze_user_question
  | search_info
  | execute_tools
  | generate_response
  deriving Repr, DecidableEq

/-- The shared node functions, as registered by `add_node`. -/
def chatNodeFn (o : ChatOracle) : NodeName → ChatState → ChatState
  | .memory_decision => memoryDecisionNode o
  | .use_memory => useMemoryNode
  | .analyze_user_question => analyzeUserQuestionNode o
  | .search_info => searchInfoNode o
  | .execute_tools => executeToolsNode o
  | .generate_response => generateResponseNode o

/-- Edges of `_create_graph` (lines 77-87); `none` is `END`.  The
conditional edge inspects `x.get("use_memory", False)` on the node's
output state. -/
def chatGraphNext : NodeName → ChatState → Option NodeName
  | .memory_decision, s =>
      some (if s.use_memory then .use_memory else .analyze_user_question)
  | .use_memory, _ => some .analyze_user_question
  | .analyze_user_question, _ => some .search_info
  | .search_info, _ => some .execute_tools
  | .execute_tools, _ => some .generate_response
  | .generate_response, _ => none

/-- Edges of `_create_graph_without_generation` (lines 101-109):
identical to `chatGraphNext` except that `execute_tools` goes to `END`
(line 109), and `generate_response` is not a node of this graph. -/
def streamGraphNext : NodeName → ChatState → Option NodeName
  | .memory_decision, s =>
      some (if s.use_memory then .use_memory else .analyze_user_question)
  | .use_memory, _ => some .analyze_user_question
  | .analyze_user_question, _ => some .search_info
  | .search_info, _ => some .execute_tools
  | .execute_tools, _ => none
  | .generate_response, _ => none

/-- Run a compiled graph from a node, collecting the `(node, output)`
stream that `astream`/`invoke` produce.  `fuel` bounds the number of
steps; both graphs finish in at most 6 steps. -/
def runGraph (next : NodeName → ChatState → Option NodeName) (o : ChatOracle) :
    ℕ → NodeName → ChatState → List (NodeName × ChatState)
  | 0, _, _ => []
  | fuel + 1, n, s =>
      let s1 := chatNodeFn o n s
      (n, s1) :: (match next n s1 with
                  | none => []
                  | some n1 => runGraph next o fuel n1 s1)

/-- The execution stream of the synchronous graph (`graph.invoke`,
entry point `memory_decision`). -/
def chatTrace (o : ChatOracle) (s : ChatState) : List (NodeName × ChatState) :=
  runGraph chatGraphNext o 6 .memory_decision s

/-- The execution stream of the streaming-mode graph
(`graph_without_generation.astream` in `run_stream`, lines 448-452). -/
def streamTrace (o : ChatOracle) (s : ChatState) : List (NodeName × ChatState) :=
  runGraph streamGraphNext o 6 .memory_decision s

/-- `final_state` captured by `run_stream` (lines 447-452): the output of
the last node of the stream. -/
def lastState : List (NodeName × ChatState) → Option ChatState :=
  fun tr => (tr.getLast?).map Prod.snd

/-- The output state of a named node within an execution stream. -/
def stateAfter (tr : List (NodeName × ChatState)) (n : NodeName) : Option ChatState :=
  (tr.find? fun p => p.1 == n).map Prod.snd

end Chat

namespace SearchSvc

/-!
## Search service and upload-search service
Sources: `src/f/llm_service/beq_v2_optimize.flow/inline_script_2.inline_script.py`
(the main search workflow) and `inline_script_1.inline_script.py`
(`PostUploadSearcher`).

Each HTTP call is abstracted as an `HTTPOutcome`: `ok` with the parsed
JSON body, `reqFail` for a raised `requests.RequestException` (network
error or error status via `raise_for_status`), `otherFail` for any other
exception while handling the response.
-/

open Lumir List

/-- Outcome of one HTTP call. -/
inductive HTTPOutcome (α : Type) where
  | ok (v : α)
  | reqFail (msg : String)
  | otherFail (msg : String)
  deriving Repr, DecidableEq

/-- A raw search-endpoint result row
(`{chunk_id, document_id, document_title, chunk_text, similarity_score}`). -/
structure SearchRow where
  chunk_id : Option String := none
  document_id : Option String := none
  document_title : Option String := none
  chunk_text : Option String := none
  similarity_score : Option ℚ := none
  source : Option String := none
  deriving Repr, DecidableEq

/-- Exceptions of the search workflow: `APISearchError` versus any other
exception. -/
inductive SearchErr where
  | api (msg : String)
  | other (msg : String)
  deriving Repr, DecidableEq

/-- `format_search_results` (script 2, lines 178-197); the
`**result.get("metadata", {})` spread is not modelled. -/
def formatSearchResults (results : List SearchRow) : List RawResult :=
  results.map fun r =>
    { id := r.chunk_id,
      score := some (r.similarity_score.getD 0),
      payload := some { chunk_id := r.chunk_id,
                        document_id := r.document_id,
                        doc_title := r.document_title,
                        chunk_content := r.chunk_text,
                        source := some (r.source.getD "search") } }

/-- `generate_embedding` (script 2, lines 55-103): a request failure is
wrapped into `APISearchError`, an empty body raises
`APISearchError("Empty embedding response from API")`, any other failure
propagates as a non-`APISearchError` exception. -/
def generateEmbedding (resp : HTTPOutcome (List (List ℚ))) :
    Except SearchErr (List ℚ) :=
  match resp with
  | .reqFail m => .error (.api ("Embedding generation failed: " ++ m))
  | .otherFail m => .error (.other m)
  | .ok rows =>
      if rows.isEmpty then .error (.api "Empty embedding response from API")
      else .ok (rows.headD [])

/-- `perform_semantic_search` (script 2, lines 106-175): a request
failure is wrapped into `APISearchError`; a successful response is
formatted with `format_search_results`. -/
def performSemanticSearch (resp : HTTPOutcome (List SearchRow)) :
    Except SearchErr (List RawResult) :=
  match resp with
  | .reqFail m => .error (.api ("Search operation failed: " ++ m))
  | .otherFail m => .error (.other m)
  | .ok rows => .ok (formatSearchResults rows)

/-- `main` of the search workflow (script 2, lines 200-276):
`except APISearchError: raise` re-raises request-level failures
(lines 269-272), while `except Exception: return []` degrades unexpected
errors (lines 273-276).  The returned value is `Except`: `error` models
the re-raised `APISearchError`. -/
def searchMain (embedResp : HTTPOutcome (List (List ℚ)))
    (searchResp : HTTPOutcome (List SearchRow)) :
    Except String (List RawResult) :=
  let run : Except SearchErr (List RawResult) := do
    let _ ← generateEmbedding embedResp
    performSemanticSearch searchResp
  match run with
  | .ok results => .ok results
  | .error (.api m) => .error m
  | .error (.other _) => .ok []

/-- One formatted row of `PostUploadSearcher.search_uploaded_content`
(script 1, lines 103-116); `source` is the constant `"upload"`. -/
def formatUploadRow (r : SearchRow) : RawResult :=
  { id := r.chunk_id,
    score := some (r.similarity_score.getD 0),
    payload := some { chunk_id := r.chunk_id,
                      document_id := r.document_id,
                      doc_title := r.document_title,
                      chunk_content := r.chunk_text,
                      source := some "upload" } }

/-- `PostUploadSearcher.search_uploaded_content` (script 1, lines
79-122): its `except Exception` clause catches every failure and returns
the empty list. -/
def searchUploadedContent (resp : HTTPOutcome (List SearchRow)) : List RawResult :=
  match resp with
  | .ok rows => rows.map formatUploadRow
  | .reqFail _ => []
  | .otherFail _ => []

/-- `main` of the upload-search service (script 1, lines 124-156): a
falsy `processing_result` or any embedding failure yields the empty
list (the outer `except Exception` catches the re-raised embedding
error). -/
def uploadSearchMain (processingResult : Bool)
    (embedResp : HTTPOutcome (List (List ℚ)))
    (searchResp : HTTPOutcome (List SearchRow)) : List RawResult :=
  if !processingResult then []
  else
    match embedResp with
    | .ok rows => if rows.isEmpty then [] else searchUploadedContent searchResp
    | .reqFail _ => []
    | .otherFail _ => []

end SearchSvc

namespace Rerank

open Lumir List

/-! ### Claim C4 -/

/-- On the success path (reranking enabled, API call succeeded, score
count matches, non-empty input) `main` returns the stable descending sort
of the annotated results. -/
theorem rerankMain_success (scores : List ℚ) (searchResults : List RawResult)
    (hlen : scores.length = searchResults.length) (hne : searchResults ≠ []) :
    rerankMain true (some scores) searchResults
      = pySortDesc rerankKey (annotateScores searchResults scores) := by
  have hre : searchResults.isEmpty = false := by
    simpa [List.isEmpty_iff] using hne
  have hse : scores.isEmpty = false := by
    rcases scores with _ | ⟨a, t⟩
    · exact absurd (List.length_eq_zero.mp hlen.symm) hne
    · rfl
  simp [rerankMain, rerankResults, extractContexts, applyRerankingScores,
    hre, hse, hlen, hne]

/-- C4: reranking returns the input list unchanged (same items, same
order) when disabled, when the rerank call fails, and when the score
count does not match the input count; otherwise it returns the
score-annotated items in a stable descending sort by rerank score: the
output is a permutation of the annotated input, is sorted by
non-increasing rerank score, and any two annotated items that appear in a
given order in the input (in particular, ties) keep that order whenever
it is compatible with the descending order. -/
theorem C4_rerank_invariance (enableRerank : Bool) (api : Option (List ℚ))
    (searchResults : List RawResult) :
    (enableRerank = false → rerankMain enableRerank api searchResults = searchResults) ∧
    (api = none → rerankMain enableRerank api searchResults = searchResults) ∧
    (∀ scores, api = some scores → scores.length ≠ searchResults.length →
        rerankMain enableRerank api searchResults = searchResults) ∧
    (∀ scores, scores.length = searchResults.length → searchResults ≠ [] →
        rerankMain true (some scores) searchResults
          ~ annotateScores searchResults scores ∧
        (rerankMain true (some scores) searchResults).Sorted (descRel rerankKey) ∧
        (∀ a b, [a, b] <+ annotateScores searchResults scores →
            rerankKey b ≤ rerankKey a →
            [a, b] <+ rerankMain true (some scores) searchResults)) := by
  refine ⟨?_, ?_, ?_, ?_⟩
  · intro h
    simp [rerankMain, h]
  · intro h
    subst h
    by_cases he : searchResults.isEmpty
    · simp [rerankMain, he]
    · simp [rerankMain, rerankResults, he]
  · intro scores h hne
    subst h
    by_cases he : searchResults.isEmpty
    · simp [rerankMain, he]
    · have : (scores.length != searchResults.length) = true := by
        simpa using hne
      simp [rerankMain, rerankResults, he, this]
  · intro scores hlen hne
    rw [rerankMain_success scores searchResults hlen hne]
    exact ⟨pySortDesc_perm _ _, pySortDesc_sorted _ _,
      fun a b hab hord =>
        pySortDesc_stable rerankKey hab (List.pairwise_pair.mpr hord)⟩

/-- Concrete items for the C4 witness. -/
def witnessItemA : RawResult := { id := some "a" }

/-- Second concrete item for the C4 witness. -/
def witnessItemB : RawResult := { id := some "b" }

/-- Witness for C4 at a concrete input: two items with tied rerank
scores keep their input order, and the whole output is the annotated
input itself. -/
theorem C4_rerank_invariance_witness :
    rerankMain true (some [1, 1]) [witnessItemA, witnessItemB]
      ~ annotateScores [witnessItemA, witnessItemB] [1, 1] ∧
    rerankMain false none [witnessItemA, witnessItemB] = [witnessItemA, witnessItemB] := by
  constructor
  · exact ((C4_rerank_invariance true (some [1, 1]) [witnessItemA, witnessItemB]).2.2.2
      [1, 1] (by decide) (by decide)).1
  · exact (C4_rerank_invariance false none [witnessItemA, witnessItemB]).1 rfl

end Rerank

namespace ContextSvc

open Lumir List

/-! ### Claim C5 -/

/-- `_validate_context_item` holds exactly when the score reaches the
threshold and the text has at least 10 characters. -/
theorem validateContextItem_iff (minScoreThreshold : ℚ) (c : ContextItem) :
    validateContextItem minScoreThreshold c = true
      ↔ minScoreThreshold ≤ c.score ∧ 10 ≤ c.text.length := by
  simp only [validateContextItem]
  split_ifs with h1 h2
  · simp [not_le.mpr h1]
  · simp [not_le.mpr h2]
  · simp [not_lt.mp h1, not_lt.mp h2]

/-- C5: context selection keeps only items whose extracted text is
non-empty after trimming, at least 10 characters long, and whose score
reaches the 0.0 default threshold; it sorts the surviving items by
`(score, text length)` descending and keeps at most `K` of them, with
`K = 7` in upload mode and `K = 5` otherwise.  When at most `K` items
survive the filter, none is dropped. -/
theorem C5_context_selection (searchResults : List RawResult) (uploadMode : Bool) :
    (contextMain searchResults uploadMode).1.length ≤ (if uploadMode then 7 else 5) ∧
    (∀ c ∈ (contextMain searchResults uploadMode).1,
        c ∈ processSearchResults 0 searchResults ∧
        c.text ≠ "" ∧ 0 ≤ c.score ∧ 10 ≤ c.text.length) ∧
    (contextMain searchResults uploadMode).1.Sorted (descRel ctxKey) ∧
    ((processSearchResults 0 searchResults).length ≤ (if uploadMode then 7 else 5) →
        (contextMain searchResults uploadMode).1 ~ processSearchResults 0 searchResults) ∧
    (∀ r ∈ searchResults, ∀ c, extractContextItem r = some c →
        validateContextItem 0 c = true → c ∈ processSearchResults 0 searchResults) := by
  set K := if uploadMode then 7 else 5 with hK
  have hmain : (contextMain searchResults uploadMode).1
      = selectTopContexts K (processSearchResults 0 searchResults) := rfl
  set valid := processSearchResults 0 searchResults with hvalid
  have hmem : ∀ c ∈ valid, c.text ≠ "" ∧ 0 ≤ c.score ∧ 10 ≤ c.text.length := by
    intro c hc
    rw [hvalid, processSearchResults, List.mem_filterMap] at hc
    obtain ⟨r, _, hr⟩ := hc
    rcases hext : extractContextItem r with _ | c2 <;> rw [hext] at hr
    · simp at hr
    · simp only [] at hr
      by_cases hval : validateContextItem 0 c2 = true
      · rw [if_pos hval] at hr
        rw [Option.some.injEq] at hr
        subst hr
        have hv := (validateContextItem_iff 0 c2).mp hval
        refine ⟨?_, hv.1, hv.2⟩
        intro habs
        have h10 := hv.2
        rw [habs] at h10
        simp at h10
      · rw [if_neg hval] at hr
        simp at hr
  by_cases hemp : valid.isEmpty
  · have : selectTopContexts K valid = [] := by
      simp [selectTopContexts, hemp]
    rw [hmain, this]
    refine ⟨by simp, by simp, by simp [List.Sorted], ?_, ?_⟩
    · intro _
      rw [List.isEmpty_iff] at hemp
      rw [hemp]
    · intro r hr c hext hval
      rw [hvalid, processSearchResults, List.mem_filterMap]
      exact ⟨r, hr, by rw [hext]; simp [hval]⟩
  · have hsel : selectTopContexts K valid = (pySortDesc ctxKey valid).take K := by
      simp [selectTopContexts, hemp]
    rw [hmain, hsel]
    refine ⟨?_, ?_, ?_, ?_, ?_⟩
    · simpa using Nat.le_trans (List.length_take_le K _) (le_refl K)
    · intro c hc
      have hc2 : c ∈ pySortDesc ctxKey valid := List.mem_of_mem_take hc
      have hc3 : c ∈ valid := (pySortDesc_perm ctxKey valid).mem_iff.mp hc2
      exact ⟨hc3, hmem c hc3⟩
    · exact (pySortDesc_sorted ctxKey valid).sublist (List.take_sublist K _)
    · intro hle
      have hlen : (pySortDesc ctxKey valid).length = valid.length :=
        (pySortDesc_perm ctxKey valid).length_eq
      rw [List.take_of_length_le (by rw [hlen]; exact hle)]
      exact pySortDesc_perm ctxKey valid
    · intro r hr c hext hval
      rw [hvalid, processSearchResults, List.mem_filterMap]
      exact ⟨r, hr, by rw [hext]; simp [hval]⟩

end ContextSvc

namespace Chunking

open List

/-! ### Claims C2, C3, C9 -/

/-- The per-document loop distributes over list append: each document
contributes independently of its siblings. -/
theorem processDocsLoop_append (env : PipelineEnv) (l1 l2 : List String) :
    processDocsLoop env (l1 ++ l2)
      = { chunks := (processDocsLoop env l1).chunks ++ (processDocsLoop env l2).chunks,
          processed := (processDocsLoop env l1).processed + (processDocsLoop env l2).processed,
          totalSize := (processDocsLoop env l1).totalSize + (processDocsLoop env l2).totalSize,
          errors := (processDocsLoop env l1).errors ++ (processDocsLoop env l2).errors } := by
  induction l1 with
  | nil => simp [processDocsLoop]
  | cons d rest ih => simp [processDocsLoop, ih, Nat.add_assoc]

/-- The loop contribution of a single failing document. -/
theorem processDocsLoop_single_error (env : PipelineEnv) (d e : String)
    (hd : env.processDoc d = .error e) :
    processDocsLoop env [d]
      = { errors := ["Failed to process " ++ d ++ ": " ++ e] } := by
  simp [processDocsLoop, processOneDoc, hd]

/-- With an all-successful upload oracle, the upload loop reports no
failed batch and no error entry. -/
theorem uploadLoop_all_ok (env : PipelineEnv)
    (hup : ∀ n b, env.uploadBatch n b = .ok b.length) :
    ∀ (bs : List (List Chunk)) (k : ℕ),
      uploadLoop env k bs
        = { uploaded_chunks := (bs.map List.length).sum,
            successful_batches := bs.length, failed_batches := 0, errors := [] } := by
  intro bs
  induction bs with
  | nil => intro k; simp [uploadLoop]
  | cons b rest ih => intro k; simp [uploadLoop, hup, ih]

/-- C2: one document's failure contributes exactly one error entry and
leaves the other documents' contributions intact (first conjunct,
arbitrary position); in the 3-document scenario where only document 2
fails during download, the pipeline collects the chunk records of
documents 1 and 3 and reports exactly one error naming document 2
(second conjunct). -/
theorem C2_fault_isolation :
    (∀ (env : PipelineEnv) (pre post : List String) (d e : String),
        env.processDoc d = .error e →
        processDocsLoop env (pre ++ d :: post)
          = { chunks := (processDocsLoop env pre).chunks
                ++ (processDocsLoop env post).chunks,
              processed := (processDocsLoop env pre).processed
                + (processDocsLoop env post).processed,
              totalSize := (processDocsLoop env pre).totalSize
                + (processDocsLoop env post).totalSize,
              errors := (processDocsLoop env pre).errors
                ++ ("Failed to process " ++ d ++ ": " ++ e)
                  :: (processDocsLoop env post).errors }) ∧
    (∀ (env : PipelineEnv) (c1 c3 : List Chunk) (m1 m3 : DocMeta) (e2 : String),
        env.processDoc "d1" = .ok (c1, m1) → c1 ≠ [] →
        env.processDoc "d2" = .error e2 →
        env.processDoc "d3" = .ok (c3, m3) → c3 ≠ [] →
        (∀ n b, env.uploadBatch n b = .ok b.length) →
        (processDocsLoop env ["d1", "d2", "d3"]).chunks = c1 ++ c3 ∧
        ∃ r, processDocuments env ["d1", "d2", "d3"] "s" none = .ok r ∧
          r.errors = ["Failed to process d2: " ++ e2] ∧
          r.total_chunks_created = (c1 ++ c3).length ∧
          r.documents_processed = 2) := by
  constructor
  · intro env pre post d e hd
    have h1 := processDocsLoop_append env pre (d :: post)
    have h2 : processDocsLoop env (d :: post)
        = { chunks := (processDocsLoop env post).chunks,
            processed := (processDocsLoop env post).processed,
            totalSize := (processDocsLoop env post).totalSize,
            errors := ("Failed to process " ++ d ++ ": " ++ e)
              :: (processDocsLoop env post).errors } := by
      simp [processDocsLoop, processOneDoc, hd]
    rw [h1, h2]
  · intro env c1 c3 m1 m3 e2 h1 hc1 h2 h3 hc3 hup
    have hc1e : c1.isEmpty = false := by simpa [List.isEmpty_iff] using hc1
    have hc3e : c3.isEmpty = false := by simpa [List.isEmpty_iff] using hc3
    have hloop : processDocsLoop env ["d1", "d2", "d3"]
        = { chunks := c1 ++ c3, processed := 2,
            totalSize := m1.file_size + m3.file_size,
            errors := ["Failed to process d2: " ++ e2] } := by
      simp [processDocsLoop, processOneDoc, h1, h2, h3, hc1e, hc3e]
    refine ⟨by rw [hloop], ?_⟩
    have hval : validateInputs ["d1", "d2", "d3"] "s" = .ok ["d1", "d2", "d3"] := by
      rfl
    have hchunksne : (c1 ++ c3).isEmpty = false := by
      simp [List.isEmpty_iff, hc1]
    have hres : processDocuments env ["d1", "d2", "d3"] "s" none
        = .ok { success := true, documents_processed := 2,
                total_chunks_created := (c1 ++ c3).length,
                uploaded_chunks := ((toBatches 8 (c1 ++ c3)).map List.length).sum,
                total_size_bytes := m1.file_size + m3.file_size,
                errors := ["Failed to process d2: " ++ e2] } := by
      simp only [processDocuments, hval, hloop, effBatchSize, hchunksne,
        uploadChunksBatch, uploadLoop_all_ok env hup]
      simp
    exact ⟨_, hres, rfl, rfl, rfl⟩

end Chunking

namespace Chunking

open List

/-- Oracle for the C2 witness: document d2 fails during download, d1 and
d3 each produce one chunk, uploads succeed. -/
def c2Env : PipelineEnv where
  processDoc := fun d =>
    if d = "d2" then .error "download error"
    else .ok ([{ document_id := d }], {})
  uploadBatch := fun _ b => .ok b.length

/-- Witness for C2 at the concrete 3-document input. -/
theorem C2_fault_isolation_witness :
    (processDocsLoop c2Env ["d1", "d2", "d3"]).chunks
      = [{ document_id := "d1" }, { document_id := "d3" }] := by
  simpa using
    (C2_fault_isolation.2 c2Env [{ document_id := "d1" }] [{ document_id := "d3" }]
      {} {} "download error" rfl (by simp) rfl rfl (by simp) (fun n b => rfl)).1

/-- Unfolding of the batch grouping on a non-empty list with a positive
batch size. -/
theorem toBatches_pos (batchSize : ℕ) (l : List Chunk)
    (hb : batchSize ≠ 0) (hl : l ≠ []) :
    toBatches batchSize l
      = l.take batchSize :: toBatches batchSize (l.drop batchSize) := by
  rw [toBatches]
  simp [hb, hl]

/-- The batch grouping of the empty list. -/
theorem toBatches_nil (batchSize : ℕ) : toBatches batchSize [] = [] := by
  rw [toBatches]
  simp

/-- C3: the pipeline's `success` flag is true only if at least one
document was processed and zero upload batches failed (first conjunct);
17 chunks with batch size 8 are grouped into exactly three batches of
sizes 8, 8 and 1 (second conjunct); and when only batch 2 of the three
fails, batches 1 and 3 are still attempted and exactly one batch error is
recorded, with the upload reporting failure (third conjunct). -/
theorem C3_upload_batching :
    (∀ (env : PipelineEnv) (docs : List String) (sid : String) (bsz : Option ℕ)
        (r : PipelineOk),
        processDocuments env docs sid bsz = .ok r → r.success = true →
        0 < r.documents_processed ∧
        ∀ clean, validateInputs docs sid = .ok clean →
          (uploadChunksBatch env (processDocsLoop env clean).chunks
            (effBatchSize bsz)).failed_batches = 0) ∧
    (∀ chunks : List Chunk, chunks.length = 17 →
        (toBatches 8 chunks).map List.length = [8, 8, 1]) ∧
    (∀ (env : PipelineEnv) (chunks b1 b2 b3 : List Chunk) (e : String),
        toBatches 8 chunks = [b1, b2, b3] →
        env.uploadBatch 1 b1 = .ok b1.length →
        env.uploadBatch 2 b2 = .error e →
        env.uploadBatch 3 b3 = .ok b3.length →
        uploadChunksBatch env chunks 8
          = { success := false, total_chunks := chunks.length,
              uploaded_chunks := b1.length + b3.length,
              successful_batches := 2, failed_batches := 1,
              errors := ["Batch 2 failed: " ++ e] }) := by
  refine ⟨?_, ?_, ?_⟩
  · intro env docs sid bsz r hr hs
    rcases hv : validateInputs docs sid with e | clean0
    · rw [processDocuments, hv] at hr
      exact absurd hr (by simp)
    · rw [processDocuments, hv] at hr
      simp only [PipelineResult.ok.injEq] at hr
      subst hr
      by_cases hce : (processDocsLoop env clean0).chunks.isEmpty
      · simp [hce] at hs
      · simp only [hce, Bool.false_eq_true, if_false, Bool.and_eq_true,
          decide_eq_true_eq] at hs
        refine ⟨hs.1, ?_⟩
        intro clean hclean
        injection hclean with hcc
        subst hcc
        have h2 := hs.2
        simp only [uploadChunksBatch, beq_iff_eq] at h2 ⊢
        exact h2
  · intro chunks h17
    have h1 : chunks ≠ [] := by
      intro h
      rw [h] at h17
      simp at h17
    have hd1 : (chunks.drop 8).length = 9 := by simp [h17]
    have h2 : chunks.drop 8 ≠ [] := by
      intro h
      rw [h] at hd1
      simp at hd1
    have hd2 : ((chunks.drop 8).drop 8).length = 1 := by simp [h17]
    have h3 : (chunks.drop 8).drop 8 ≠ [] := by
      intro h
      rw [h] at hd2
      simp at hd2
    have hd3 : ((chunks.drop 8).drop 8).drop 8 = [] := by
      apply List.eq_nil_of_length_eq_zero
      simp [h17]
    rw [toBatches_pos 8 chunks (by decide) h1,
      toBatches_pos 8 _ (by decide) h2,
      toBatches_pos 8 _ (by decide) h3, hd3, toBatches_nil]
    simp [List.length_take, h17, hd1, hd2]
  · intro env chunks b1 b2 b3 e hb h1 h2 h3
    simp only [uploadChunksBatch, hb, uploadLoop, h1, h2, h3]
    have ht : (toString (2 : ℕ)) = "2" := by decide
    simp [ht]

end Chunking

namespace Chunking

open List

/-- Oracle for the C3 witness: batch number 2 fails, all other batches
succeed. -/
def c3Env : PipelineEnv where
  processDoc := fun _ => .error "unused"
  uploadBatch := fun n b => if n = 2 then .error "boom" else .ok b.length

/-- Witness for C3 at a concrete input: 17 identical chunks, batch size
8, batch 2 failing. -/
theorem C3_upload_batching_witness :
    uploadChunksBatch c3Env (List.replicate 17 ({} : Chunk)) 8
      = { success := false, total_chunks := 17, uploaded_chunks := 9,
          successful_batches := 2, failed_batches := 1,
          errors := ["Batch 2 failed: boom"] } := by
  have hlen : (List.replicate 17 ({} : Chunk)).length = 17 := by simp
  have hmap := C3_upload_batching.2.1 (List.replicate 17 ({} : Chunk)) hlen
  rcases hbs : toBatches 8 (List.replicate 17 ({} : Chunk)) with _ | ⟨b1, t1⟩
  · rw [hbs] at hmap
    simp at hmap
  · rcases t1 with _ | ⟨b2, t2⟩
    · rw [hbs] at hmap
      simp at hmap
    · rcases t2 with _ | ⟨b3, t3⟩
      · rw [hbs] at hmap
        simp at hmap
      · rcases t3 with _ | ⟨b4, t4⟩
        · rw [hbs] at hmap
          simp at hmap
          obtain ⟨hb1, hb2, hb3⟩ := hmap
          have h := C3_upload_batching.2.2 c3Env (List.replicate 17 ({} : Chunk))
            b1 b2 b3 "boom" hbs rfl rfl rfl
          rw [h, hlen, hb1, hb3]
          rfl
        · rw [hbs] at hmap
          simp at hmap
end Chunking

namespace Chunking

open List

/-- When every document of the list fails, the loop collects no chunk,
processes no document, and records one error per document. -/
theorem processDocsLoop_all_fail (env : PipelineEnv) (docs : List String)
    (hall : ∀ d ∈ docs, ∃ e, env.processDoc d = .error e) :
    (processDocsLoop env docs).chunks = [] ∧
    (processDocsLoop env docs).processed = 0 ∧
    (processDocsLoop env docs).errors.length = docs.length := by
  induction docs with
  | nil => simp [processDocsLoop]
  | cons d rest ih =>
      obtain ⟨e, he⟩ := hall d (by simp)
      have ihh := ih (fun d2 hd2 => hall d2 (by simp [hd2]))
      simp [processDocsLoop, processOneDoc, he, ihh.1, ihh.2.1, ihh.2.2]

/-- A successful validation never returns an empty document list. -/
theorem validateInputs_ok_ne_nil (docs : List String) (sid : String)
    (clean : List String) (h : validateInputs docs sid = .ok clean) :
    clean ≠ [] := by
  intro habs
  subst habs
  unfold validateInputs at h
  split_ifs at h <;> simp_all [List.isEmpty_iff]
  split_ifs at h <;> simp_all

/-- C9 (amended): on a validation failure `process_documents` returns the
fatal-shaped dict carrying `success = false` and a single error string —
not an errors list — and does not raise; when validation succeeds but
every document fails, it returns the full result dict with
`success = false` and one error entry per document (a non-empty errors
list).  In both cases the caller receives a well-formed result object. -/
theorem C9_structured_failure (env : PipelineEnv) (docs : List String)
    (sid : String) (bsz : Option ℕ) :
    (∀ e, validateInputs docs sid = .error e →
        processDocuments env docs sid bsz = .fatal e ∧
        (processDocuments env docs sid bsz).success = false ∧
        (processDocuments env docs sid bsz).errorsList = none) ∧
    (∀ clean, validateInputs docs sid = .ok clean →
        (∀ d ∈ clean, ∃ e, env.processDoc d = .error e) →
        (processDocuments env docs sid bsz).success = false ∧
        (processDocuments env docs sid bsz).errorsList
          = some (processDocsLoop env clean).errors ∧
        (processDocsLoop env clean).errors ≠ []) := by
  constructor
  · intro e he
    have h : processDocuments env docs sid bsz = .fatal e := by
      rw [processDocuments, he]
    refine ⟨h, ?_, ?_⟩ <;> rw [h] <;> rfl
  · intro clean hv hall
    have hl := processDocsLoop_all_fail env clean hall
    have hne := validateInputs_ok_ne_nil docs sid clean hv
    have hres : processDocuments env docs sid bsz
        = .ok { success := false,
                documents_processed := (processDocsLoop env clean).processed,
                total_chunks_created := 0, uploaded_chunks := 0,
                total_size_bytes := (processDocsLoop env clean).totalSize,
                errors := (processDocsLoop env clean).errors } := by
      rw [processDocuments, hv]
      simp [hl.1, hl.2.1]
    refine ⟨by rw [hres]; rfl, by rw [hres]; rfl, ?_⟩
    intro habs
    rw [habs] at hl
    have h0 := hl.2.2
    simp at h0
    exact hne (List.length_eq_zero.mp h0.symm)

/-- Oracle for the C9 counterexample and witness: every document download
fails, uploads would succeed. -/
def c9Env : PipelineEnv where
  processDoc := fun _ => .error "connection refused"
  uploadBatch := fun _ b => .ok b.length

/-- Counterexample for C9 as stated: on an invalid input (empty
session id) the pipeline returns the fatal shape, whose failure
information is a single `error` string — it carries no errors list, so
the claim's "structured failure result carrying success = false and an
error list" does not hold on this input (though `success = false` and
not raising do hold). -/
theorem C9_counterexample :
    processDocuments c9Env ["doc1"] "" none = .fatal "Session ID is required" ∧
    (processDocuments c9Env ["doc1"] "" none).errorsList = none ∧
    (processDocuments c9Env ["doc1"] "" none).success = false :=
  ⟨rfl, rfl, rfl⟩

/-- Witness for C9 (amended) at a concrete input: one document that fails
to download. -/
theorem C9_structured_failure_witness :
    (processDocuments c9Env ["doc1"] "sess" none).success = false ∧
    (processDocsLoop c9Env ["doc1"]).errors ≠ [] := by
  have h := (C9_structured_failure c9Env ["doc1"] "sess" none).2 ["doc1"] rfl
    (fun d hd => ⟨"connection refused", rfl⟩)
  exact ⟨h.1, h.2.2⟩

end Chunking

namespace ContextSvc

open Lumir List

/-- Concrete search result for the C5 witness. -/
def c5Result : RawResult :=
  { id := some "x", score := some 1,
    payload := some { chunk_content := some "a sufficiently long text" } }

/-- Witness for C5 at a concrete input: a single valid result survives
selection in full. -/
theorem C5_context_selection_witness :
    (contextMain [c5Result] false).1 ~ processSearchResults 0 [c5Result] :=
  (C5_context_selection [c5Result] false).2.2.2.1 (by decide)

end ContextSvc

namespace Chat

open Lumir List

/-! ### Claim C1 -/

/-- C1: for every oracle and every initial state, the streaming-mode
graph (built without the generation node) finishes at `execute_tools`
with exactly the state the synchronous chat graph has just before
`generate_response` (first conjunct); the synchronous graph runs the same
node sequence plus one final `generate_response` step (second conjunct),
whose output is obtained by applying the generation node to that shared
intermediate state (third conjunct). -/
theorem C1_streaming_intermediate_state (o : ChatOracle) (s : ChatState) :
    lastState (streamTrace o s) = stateAfter (chatTrace o s) .execute_tools ∧
    (chatTrace o s).map Prod.fst
      = (streamTrace o s).map Prod.fst ++ [NodeName.generate_response] ∧
    lastState (chatTrace o s)
      = (stateAfter (chatTrace o s) .execute_tools).map (generateResponseNode o) := by
  by_cases hm : (memoryDecisionNode o s).use_memory
  all_goals
    refine ⟨?_, ?_, ?_⟩
  all_goals
    first
    | (simp [chatTrace, streamTrace, runGraph, chatGraphNext, streamGraphNext,
        chatNodeFn, lastState, stateAfter, hm, List.find?] <;> rfl)
    | rfl

end Chat

namespace Chat

open Lumir List

/-! ### Claim C6 -/

/-- C6: `use_memory` is set to the comparison of the stripped, lowercased
oracle response with the literal `"true"` (so exactly the token `"true"`,
case-insensitively, yields `true` and any other text yields `false`), and
if the decision oracle raises, the node sets `use_memory = false` and
proceeds to `analyze_user_question` without raising. -/
theorem C6_memory_decision (o : ChatOracle) (s : ChatState) :
    (∀ txt, o.memoryDecision s.user_question (loadMemoryStep o s).2 = .ok txt →
        (memoryDecisionNode o s).use_memory = (pyLower (pyStrip txt) == "true") ∧
        ((memoryDecisionNode o s).use_memory = false →
          (memoryDecisionNode o s).current_step = "analyze_user_question")) ∧
    (∀ e, o.memoryDecision s.user_question (loadMemoryStep o s).2 = .error e →
        (memoryDecisionNode o s).use_memory = false ∧
        (memoryDecisionNode o s).current_step = "analyze_user_question" ∧
        chatGraphNext .memory_decision (memoryDecisionNode o s)
          = some .analyze_user_question) := by
  constructor
  · intro txt htxt
    constructor
    · simp [memoryDecisionNode, htxt]
    · intro hfalse
      simp only [memoryDecisionNode, htxt] at hfalse ⊢
      simp at hfalse
      simp [hfalse]
  · intro e he
    refine ⟨?_, ?_, ?_⟩ <;> simp [memoryDecisionNode, he, chatGraphNext]

/-- Decision oracle for the C6 witness: answers `" TRUE "`. -/
def c6Oracle : ChatOracle :=
  { memoryDecision := fun _ _ => .ok " TRUE " }

/-- Witness for C6 at a concrete input: the response `" TRUE "` strips
and lowercases to `"true"`, so memory is used. -/
theorem C6_memory_decision_witness :
    (memoryDecisionNode c6Oracle {}).use_memory
      = (pyLower (pyStrip " TRUE ") == "true") :=
  ((C6_memory_decision c6Oracle {}).1 " TRUE " rfl).1

/-! ### Claims C7 and C10 -/

/-- Counterexample for C7 as stated: the chat `execute_tools` node does
not fail when the state lacks a plan.  With the llm key present it
silently substitutes a default plan and completes; with the llm key
absent, `use_tools` raises `ValueError("Plan not found in state")`, but
the node's `except` clause swallows it, records an error string and
proceeds to `generate_response` instead of raising. -/
theorem C7_counterexample :
    ({ user_question := "q" } : ChatState).plan = none ∧
    (executeToolsNode {} { user_question := "q" }).tool_results
      = some (.errStr "Tool execution error: Plan not found in state") ∧
    (executeToolsNode {} { user_question := "q" }).current_step
      = "generate_response" ∧
    ({ user_question := "q", hasLLM := true } : ChatState).plan = none ∧
    (executeToolsNode {} { user_question := "q", hasLLM := true }).plan
      = some "Search for information about: q" ∧
    (executeToolsNode {} { user_question := "q", hasLLM := true }).tool_results
      = some (.map [("info", "No tool calls found in response.")]) :=
  ⟨rfl, rfl, rfl, rfl, rfl, rfl⟩

/-- C7 (amended): `use_tools` itself raises a `ValueError` whenever the
state lacks the llm, a truthy plan, or a non-empty tool list; but the
chat `execute_tools` node never propagates an error: it substitutes a
default plan when the llm key is present and the plan key absent, always
installs the fixed three-tool list, converts any `use_tools` error into a
`tool_results` error string, and always proceeds to
`generate_response`. -/
theorem C7_execute_tools_contract (o : ChatOracle) (s : ChatState) :
    (s.hasLLM = false → useTools o s = .error "LLM not found in state") ∧
    (s.hasLLM = true → planTruthy s.plan = false →
        useTools o s = .error "Plan not found in state") ∧
    (s.hasLLM = true → planTruthy s.plan = true → s.list_tools = [] →
        useTools o s = .error "List tools not found in state") ∧
    (s.hasLLM = true → s.plan = none →
        (executeToolsPrep s).plan = some ("Search for information about: "
          ++ s.user_question)) ∧
    ((executeToolsPrep s).list_tools = chatToolNames) ∧
    (∀ e, useTools o (executeToolsPrep s) = .error e →
        executeToolsNode o s
          = { executeToolsPrep s with
              tool_results := some (.errStr ("Tool execution error: " ++ e)),
              tool_calls := [], current_step := "generate_response" }) ∧
    (executeToolsNode o s).current_step = "generate_response" := by
  refine ⟨?_, ?_, ?_, ?_, ?_, ?_, ?_⟩
  · intro h
    simp [useTools, h]
  · intro h hp
    simp [useTools, h, hp]
  · intro h hp hl
    simp [useTools, h, hp, hl]
  · intro h hp
    simp [executeToolsPrep, h, hp]
  · rfl
  · intro e he
    simp only [executeToolsNode, he]
  · unfold executeToolsNode
    rcases h : useTools o (executeToolsPrep s) with e | tr <;> simp [h]

/-- Witness for C7 (amended) at a concrete input: a state without the
llm key makes `use_tools` raise, and the node still moves on to
`generate_response`. -/
theorem C7_execute_tools_contract_witness :
    useTools {} { user_question := "q" } = .error "LLM not found in state" ∧
    (executeToolsNode {} { user_question := "q" }).current_step
      = "generate_response" :=
  ⟨(C7_execute_tools_contract {} { user_question := "q" }).1 rfl,
   (C7_execute_tools_contract {} { user_question := "q" }).2.2.2.2.2.2⟩

/-- C10: a response message without tool calls makes `execute_tool_calls`
return the single-entry mapping `{"info": "No tool calls found in
response."}` (never the empty mapping), whose key `"info"` is not a
registered tool name; the chat `execute_tools` node then records this
entry as a `ToolCall` named `"info"` with `success = true`. -/
theorem C10_info_entry (o : ChatOracle) (s : ChatState) (resp : LLMResponseMsg)
    (hllm : s.hasLLM = true)
    (hplan : planTruthy (executeToolsPrep s).plan = true)
    (hresp : o.useToolsLLM s.user_question ((executeToolsPrep s).plan.getD "")
      = .ok resp)
    (hnone : resp.tool_calls = []) :
    (∀ registry, executeToolCalls o [] registry
        = [("info", "No tool calls found in response.")]) ∧
    "info" ∉ chatToolNames ∧
    (executeToolsNode o s).tool_results
      = some (.map [("info", "No tool calls found in response.")]) ∧
    (executeToolsNode o s).tool_calls
      = [{ tool_name := "info", parameters := [],
           result := "No tool calls found in response.", success := true }] := by
  have hq : (executeToolsPrep s).user_question = s.user_question := by
    unfold executeToolsPrep
    split_ifs <;> rfl
  have hllm2 : (executeToolsPrep s).hasLLM = true := by
    unfold executeToolsPrep
    split_ifs <;> simp [hllm]
  have hut : useTools o (executeToolsPrep s)
      = .ok [("info", "No tool calls found in response.")] := by
    unfold useTools
    rw [hllm2, hplan, hq, hresp]
    simp [executeToolsPrep, chatToolNames, executeToolCalls, hnone]
  have hpre : pyStartsWith "No tool calls found in response." "❌" = false := by
    decide
  refine ⟨fun registry => rfl, by decide, ?_, ?_⟩ <;>
    simp [executeToolsNode, hut, hpre]

end Chat

namespace Chat

open Lumir List

/-- Witness for C10 at a concrete input: the default oracle returns a
response without tool calls, and the node records the `"info"` entry as a
successful `ToolCall`. -/
theorem C10_info_entry_witness :
    (executeToolsNode {} { user_question := "q", hasLLM := true }).tool_calls
      = [{ tool_name := "info", parameters := [],
           result := "No tool calls found in response.", success := true }] :=
  (C10_info_entry {} { user_question := "q", hasLLM := true } {}
    rfl rfl rfl rfl).2.2.2

end Chat

namespace SearchSvc

open Lumir List

/-! ### Claim C8 -/

/-- Counterexample for C8 as stated: the main search workflow does not
return an empty sequence on a request-level failure — its
`except APISearchError: raise` clause re-raises it, so a network error
during embedding propagates to the caller. -/
theorem C8_counterexample :
    searchMain (.reqFail "connection timeout") (.ok [])
      = .error "Embedding generation failed: connection timeout" ∧
    searchMain (.reqFail "connection timeout") (.ok []) ≠ .ok [] := by
  refine ⟨rfl, ?_⟩
  intro h
  exact Except.noConfusion h

/-- C8 (amended): the upload-content search returns the empty list on any
request failure (and its service `main` degrades every failure to the
empty list), while the main search workflow re-raises request-level
failures of the embedding or search call as `APISearchError` and returns
the empty list only for unexpected non-request errors. -/
theorem C8_search_degradation (searchResp : HTTPOutcome (List SearchRow))
    (processingResult : Bool) :
    (∀ m, searchUploadedContent (.reqFail m) = [] ∧
        searchUploadedContent (.otherFail m) = []) ∧
    (∀ m, uploadSearchMain processingResult (.reqFail m) searchResp = []) ∧
    (∀ m, searchMain (.reqFail m) searchResp
        = .error ("Embedding generation failed: " ++ m)) ∧
    (∀ m rows, rows ≠ [] → searchResp = .reqFail m →
        searchMain (.ok rows) searchResp
          = .error ("Search operation failed: " ++ m)) ∧
    (∀ m, searchMain (.otherFail m) searchResp = .ok []) := by
  refine ⟨fun m => ⟨rfl, rfl⟩, ?_, fun m => rfl, ?_, fun m => rfl⟩
  · intro m
    unfold uploadSearchMain
    split_ifs <;> rfl
  · intro m rows hrows hresp
    subst hresp
    have hre : rows.isEmpty = false := by simpa [List.isEmpty_iff] using hrows
    simp only [searchMain, generateEmbedding, performSemanticSearch, hre,
      Bool.false_eq_true, if_false]
    rfl

/-- Witness for C8 (amended) at a concrete input: a request failure of
the search call propagates out of the main search workflow. -/
theorem C8_search_degradation_witness :
    searchMain (.ok [[1]]) (.reqFail "http 503")
      = .error ("Search operation failed: " ++ "http 503") :=
  (C8_search_degradation (.reqFail "http 503") true).2.2.2.1 "http 503" [[1]]
    (by decide) rfl

end SearchSvc
